import Mathlib

/-!
Verification development for the two Inferentia2 deployment notebooks
(Llama 3 70B and Mixtral 8x7B).  The notebooks are sequential glue code:
they build an endpoint configuration dictionary, create a model object,
deploy it, send a chat request, parse a benchmark summary file and tear
the endpoint down.  We embed the data that flows through these cells
(JSON values, the configuration dictionaries, the request bodies, the
benchmark readers) and prove the spec's claims about them.  Operations
performed by the hosting platform itself (deploy, predict, delete) have
no implementation in the repository; where a claim is about them, the
corresponding definition is modelled from the spec and says so in its
doc comment.
-/

/-- JSON values as produced by `json.load` and consumed by the notebook
cells.  Numbers are modelled as rationals. -/
inductive Json where
  | str : String → Json
  | num : ℚ → Json
  | jbool : Bool → Json
  | null : Json
  | arr : List Json → Json
  | obj : List (String × Json) → Json

/-- Python exceptions that the reader cells can raise: `IndexError` from
`glob.glob(...)[0]` on an empty match list, `KeyError` from `data[k]` on a
missing key, `TypeError` from using a non-numeric value in arithmetic. -/
inductive PyError where
  | indexError : PyError
  | keyError : PyError
  | typeError : PyError
deriving DecidableEq, Repr

/-- `data[k]` on a parsed JSON value: a `KeyError` when the key is absent,
a `TypeError` when `data` is not an object. -/
def Json.getItem : Json → String → Except PyError Json
  | .obj kvs, k =>
    match kvs.lookup k with
    | some v => .ok v
    | none => .error .keyError
  | _, _ => .error .typeError

/-- Using a JSON value as a number (the reader multiplies it by 1000 or
formats it with `:.2f`): only numeric values are accepted. -/
def Json.asNum : Json → Except PyError ℚ
  | .num q => .ok q
  | _ => .error .typeError

/-- Keys of a JSON object, in insertion order. -/
def Json.objKeys : Json → List String
  | .obj kvs => kvs.map Prod.fst
  | _ => []

/-- Filename match for the glob pattern `*summary.json`: `*` matches any
(possibly empty) run of characters, so a name matches exactly when it ends
with the literal `summary.json`. -/
def matchesSummaryPattern (name : String) : Bool :=
  List.isSuffixOf "summary.json".data name.data

/-- `int(x)` applied by the Mixtral reader to the float token means:
truncation toward zero. -/
def pyInt (q : ℚ) : ℤ :=
  if 0 ≤ q then ⌊q⌋ else ⌈q⌉

/-- The values the Llama notebook's benchmark reader cell reports: the two
token means are printed verbatim (any JSON value), the two latency means
are converted from seconds to milliseconds by multiplying by 1000, and
the throughput is printed as is. -/
structure LlamaBenchmarkReport where
  meanInputTokens : Json
  meanOutputTokens : Json
  ttftMs : ℚ
  throughputTokPerS : ℚ
  interTokenLatencyMs : ℚ

/-- Body of the Llama reader cell once the summary file's JSON value is in
hand: `data['mean_input_tokens']`, `data['mean_output_tokens']`,
`data['results_ttft_s_mean']*1000`,
`data['results_mean_output_throughput_token_per_s']`,
`data['results_inter_token_latency_s_mean']*1000`. -/
def parseLlamaData (data : Json) : Except PyError LlamaBenchmarkReport := do
  let inTok ← data.getItem "mean_input_tokens"
  let outTok ← data.getItem "mean_output_tokens"
  let ttft ← data.getItem "results_ttft_s_mean" >>= Json.asNum
  let thr ← data.getItem "results_mean_output_throughput_token_per_s" >>= Json.asNum
  let itl ← data.getItem "results_inter_token_latency_s_mean" >>= Json.asNum
  pure ⟨inTok, outTok, ttft * 1000, thr, itl * 1000⟩

/-- The Llama reader cell:
`with open(glob.glob('results/*summary.json')[0]) as f: data = json.load(f)`
followed by the prints.  A results directory is a list of
(filename, parsed JSON contents) pairs in listing order; `[0]` takes the
first globbed match and raises `IndexError` when there is none. -/
def readLlamaSummary (files : List (String × Json)) :
    Except PyError LlamaBenchmarkReport :=
  match (files.filter fun f => matchesSummaryPattern f.1).head? with
  | none => .error .indexError
  | some (_, data) => parseLlamaData data

/-- The values the Mixtral notebook's benchmark reader cell reports: the
token means pass through `int(...)`, the two latency means are converted
to milliseconds, throughput and requests-per-minute are printed as is. -/
structure MixtralBenchmarkReport where
  inputTokens : ℤ
  outputTokens : ℤ
  ttftMs : ℚ
  interTokenLatencyMs : ℚ
  throughputTokPerS : ℚ
  requestsPerMin : ℚ

/-- Body of the Mixtral reader cell:
`int(data['results_number_input_tokens_mean'])`,
`int(data['results_number_output_tokens_mean'])`,
`data['results_ttft_s_mean']*1000`,
`data['results_inter_token_latency_s_mean']*1000`,
`data['results_mean_output_throughput_token_per_s']`,
`data['results_num_completed_requests_per_min']`. -/
def parseMixtralData (data : Json) : Except PyError MixtralBenchmarkReport := do
  let inTok ← data.getItem "results_number_input_tokens_mean" >>= Json.asNum
  let outTok ← data.getItem "results_number_output_tokens_mean" >>= Json.asNum
  let ttft ← data.getItem "results_ttft_s_mean" >>= Json.asNum
  let itl ← data.getItem "results_inter_token_latency_s_mean" >>= Json.asNum
  let thr ← data.getItem "results_mean_output_throughput_token_per_s" >>= Json.asNum
  let rpm ← data.getItem "results_num_completed_requests_per_min" >>= Json.asNum
  pure ⟨pyInt inTok, pyInt outTok, ttft * 1000, itl * 1000, thr, rpm⟩

/-- The Mixtral reader cell, with the same `glob.glob(...)[0]` file
selection as the Llama reader. -/
def readMixtralSummary (files : List (String × Json)) :
    Except PyError MixtralBenchmarkReport :=
  match (files.filter fun f => matchesSummaryPattern f.1).head? with
  | none => .error .indexError
  | some (_, data) => parseMixtralData data

/-- A generic llmperf summary object for the Mixtral notebook, with the
six fields the Mixtral reader cell consumes, all numeric as the external
tool writes them. -/
def mkMixtralData (qIn qOut qT qI qTh qR : ℚ) : Json :=
  .obj [("results_number_input_tokens_mean", .num qIn),
        ("results_number_output_tokens_mean", .num qOut),
        ("results_ttft_s_mean", .num qT),
        ("results_inter_token_latency_s_mean", .num qI),
        ("results_mean_output_throughput_token_per_s", .num qTh),
        ("results_num_completed_requests_per_min", .num qR)]

/-- Values appearing in the endpoint configuration dictionaries: string
literals, or the `None` that `HfFolder.get_token()` returns when no
Hugging Face token is stored. -/
inductive PyValue where
  | str : String → PyValue
  | pynone : PyValue
deriving DecidableEq, Repr

/-- The Llama notebook's endpoint configuration dictionary (`config`),
parametrised by the result of `HfFolder.get_token()`, which is `None`
when no Hugging Face token is stored. -/
def llamaConfig (token : Option String) : List (String × PyValue) :=
  [("HF_MODEL_ID", .str "meta-llama/Meta-Llama-3-70B-Instruct"),
   ("HF_NUM_CORES", .str "24"),
   ("HF_BATCH_SIZE", .str "4"),
   ("HF_SEQUENCE_LENGTH", .str "4096"),
   ("HF_AUTO_CAST_TYPE", .str "fp16"),
   ("MAX_BATCH_SIZE", .str "4"),
   ("MAX_INPUT_LENGTH", .str "4000"),
   ("MAX_TOTAL_TOKENS", .str "4096"),
   ("MESSAGES_API_ENABLED", .str "true"),
   ("HF_TOKEN", match token with
                | Option.some t => PyValue.str t
                | Option.none => PyValue.pynone)]

/-- The Mixtral notebook's endpoint configuration dictionary (`config`).
It names the precompiled artifact and carries no `HF_TOKEN` entry. -/
def mixtralConfig : List (String × PyValue) :=
  [("HF_MODEL_ID",
    .str "aws-neuron/hermes-mixtral-instruct-seqlen-4096-bs-4-optimum-0-0-23"),
   ("HF_NUM_CORES", .str "24"),
   ("HF_AUTO_CAST_TYPE", .str "fp16"),
   ("MAX_BATCH_SIZE", .str "4"),
   ("MAX_INPUT_LENGTH", .str "4000"),
   ("MAX_TOTAL_TOKENS", .str "4096"),
   ("MESSAGES_API_ENABLED", .str "true")]

/-- The Mixtral compile cell's `SEQUENCE_LENGTH = 4096`, the sequence
length of the precompiled artifact the config deploys. -/
def SEQUENCE_LENGTH : ℕ := 4096

/-- The Mixtral compile cell's `BATCH_SIZE = 4`, the batch size of the
precompiled artifact the config deploys. -/
def BATCH_SIZE : ℕ := 4

/-- Decimal digit of a character, if any. -/
def charDigit (c : Char) : Option ℕ :=
  if 48 ≤ c.toNat ∧ c.toNat ≤ 57 then some (c.toNat - 48) else none

/-- Accumulating decimal parse of a character list. -/
def parseNatAux : List Char → ℕ → Option ℕ
  | [], acc => some acc
  | c :: cs, acc =>
    match charDigit c with
    | some d => parseNatAux cs (10 * acc + d)
    | none => none

/-- Numeric reading of a decimal string such as the config's `"4096"`. -/
def parseDecNat (s : String) : Option ℕ :=
  match s.data with
  | [] => none
  | cs => parseNatAux cs 0

/-- Look up a configuration key, yielding its value when it is a string. -/
def envString (env : List (String × PyValue)) (k : String) : Option String :=
  match env.lookup k with
  | some (.str s) => some s
  | _ => none

/-- Look up a configuration key and read it as a decimal number. -/
def envNat (env : List (String × PyValue)) (k : String) : Option ℕ :=
  (envString env k).bind parseDecNat

/-- The spec's DeploymentConfig invariants, read off an environment map
against the compiled sequence length and batch size: max total tokens
equals the compiled sequence length, max input length is strictly below
max total tokens, and max batch size equals the compiled batch size. -/
def deploymentInvariantsHold (env : List (String × PyValue))
    (compiledSeqLen compiledBatchSize : ℕ) : Bool :=
  (envNat env "MAX_TOTAL_TOKENS" == some compiledSeqLen) &&
  (match envNat env "MAX_INPUT_LENGTH", envNat env "MAX_TOTAL_TOKENS" with
   | some mi, some mt => decide (mi < mt)
   | _, _ => false) &&
  (envNat env "MAX_BATCH_SIZE" == some compiledBatchSize)

/-- The model object the notebooks build:
`HuggingFaceModel(role=role, image_uri=llm_image, env=config)`. -/
structure HuggingFaceModel where
  role : String
  image_uri : String
  env : List (String × PyValue)
deriving DecidableEq

/-- The `HuggingFaceModel(...)` construction of both notebooks: it stores
its arguments; the notebooks perform no validation of the environment
map before or during this call. -/
def mkHuggingFaceModel (role image_uri : String)
    (env : List (String × PyValue)) : HuggingFaceModel :=
  ⟨role, image_uri, env⟩

/-- An environment map violating the spec invariants (max input length
5000 exceeds max total tokens 4096), used to probe the builder. -/
def violatingEnv : List (String × PyValue) :=
  [("HF_MODEL_ID", .str "meta-llama/Meta-Llama-3-70B-Instruct"),
   ("HF_NUM_CORES", .str "24"),
   ("HF_BATCH_SIZE", .str "4"),
   ("HF_SEQUENCE_LENGTH", .str "4096"),
   ("MAX_BATCH_SIZE", .str "4"),
   ("MAX_INPUT_LENGTH", .str "5000"),
   ("MAX_TOTAL_TOKENS", .str "4096")]

/-- All values of an environment map are strings (its keys are strings by
construction, as in the source dictionaries, whose keys are literals). -/
def envAllStrings (env : List (String × PyValue)) : Bool :=
  env.all fun kv =>
    match kv.2 with
    | PyValue.str _ => true
    | PyValue.pynone => false

/-- A chat message of the Messages API: a role and a content string. -/
structure ChatMessage where
  role : String
  content : String
deriving DecidableEq, Repr

/-- A message dictionary `{"role": ..., "content": ...}` as placed in the
request body. -/
def encodeMessage (m : ChatMessage) : Json :=
  .obj [("role", .str m.role), ("content", .str m.content)]

/-- The `messages` list both notebooks send. -/
def notebookMessages : List ChatMessage :=
  [⟨"system", "You are a helpful assistant."⟩,
   ⟨"user", "What is deep learning?"⟩]

/-- The Llama notebook's `parameters` dictionary. -/
def llamaParameters : List (String × Json) :=
  [("model", .str "meta-llama/Meta-Llama-3-70B-Instruct"),
   ("top_p", .num (6/10)),
   ("temperature", .num (9/10)),
   ("max_tokens", .num 50),
   ("stop", .arr [.str "<|eot_id|>"])]

/-- The Mixtral notebook's `parameters` dictionary (its `stop` entry is
commented out in the source). -/
def mixtralParameters : List (String × Json) :=
  [("model", .str "aws-neuron/mixtral-instruct-seqlen-4096-bs-4-optimum-0-0-23"),
   ("top_p", .num (6/10)),
   ("temperature", .num (9/10)),
   ("max_tokens", .num 512)]

/-- Request-body construction `{"messages": msgs, **params}` shared by
both predict calls. -/
def encodeRequest (msgs : List ChatMessage)
    (params : List (String × Json)) : Json :=
  .obj (("messages", .arr (msgs.map encodeMessage)) :: params)

/-- The Llama predict call's payload:
`{"messages": messages, **parameters, "steam": True}`. -/
def llamaRequestBody : Json :=
  .obj (("messages", .arr (notebookMessages.map encodeMessage)) ::
        llamaParameters ++ [("steam", .jbool true)])

/-- The Mixtral predict call's payload:
`{"messages": messages, **parameters}`. -/
def mixtralRequestBody : Json :=
  encodeRequest notebookMessages mixtralParameters

/-- The keys of the documented inference request schema: messages, model,
top_p, temperature, max_tokens and the optional stop list. -/
def documentedRequestKeys : List String :=
  ["messages", "model", "top_p", "temperature", "max_tokens", "stop"]

/-- Modelled from the spec: the decode direction of the Inference
Request/Response Codec for message lists is not in the repository source
(the notebooks only decode responses), so it follows the spec's words: a
message decodes from an object with string `role` and `content` fields. -/
def decodeMessage : Json → Option ChatMessage
  | .obj kvs =>
    match kvs.lookup "role", kvs.lookup "content" with
    | some (.str r), some (.str c) => some ⟨r, c⟩
    | _, _ => Option.none
  | _ => Option.none

/-- Modelled from the spec: decoding the message list back out of an
encoded request body — read the `messages` array and decode each entry. -/
def decodeMessages (body : Json) : Option (List ChatMessage) :=
  match body with
  | .obj kvs =>
    match kvs.lookup "messages" with
    | some (.arr js) => js.mapM decodeMessage
    | _ => Option.none
  | _ => Option.none

/-- The handle returned by a successful deploy: it names the model
artifact and the running endpoint that the clean-up cell deletes. -/
structure EndpointHandle where
  modelName : String
  endpointName : String
deriving DecidableEq, Repr

/-- The hosting platform's resources visible to the teardown contract:
the registered model artifacts and the running endpoints, by name. -/
structure PlatformState where
  models : List String
  endpoints : List String
deriving DecidableEq, Repr

/-- Modelled from the spec: `llm.delete_model()`.  The teardown contract
says deletion is idempotent — deleting an already-deleted artifact is a
no-op rather than an error — so the call removes the artifact when
present, otherwise changes nothing, and reports no error either way. -/
def deleteModelCall (s : PlatformState) (h : EndpointHandle) :
    PlatformState × Bool :=
  ({ s with models := s.models.filter fun m => m != h.modelName }, false)

/-- Modelled from the spec: `llm.delete_endpoint()`, with the same
idempotent no-op-on-absent contract as model deletion. -/
def deleteEndpointCall (s : PlatformState) (h : EndpointHandle) :
    PlatformState × Bool :=
  ({ s with endpoints := s.endpoints.filter fun e => e != h.endpointName },
   false)

/-- The clean-up cell: `llm.delete_model()` then `llm.delete_endpoint()`;
the second component records whether either call raised an error. -/
def cleanupCell (s : PlatformState) (h : EndpointHandle) :
    PlatformState × Bool :=
  let r1 := deleteModelCall s h
  let r2 := deleteEndpointCall r1.1 h
  (r2.1, r1.2 || r2.2)

/-- Operations issued against an endpoint handle after deployment. -/
inductive EndpointOp where
  | predictOp : EndpointOp
  | deleteOp : EndpointOp
deriving DecidableEq, Repr

/-- Modelled from the spec: the endpoint lifecycle.  A handle's
deployment is alive until the explicit delete call destroys it; predict
leaves the state unchanged while delete makes it dead. -/
def execOpAlive (alive : Bool) : EndpointOp → Bool
  | .predictOp => alive
  | .deleteOp => false

/-- Aliveness of the deployment after a sequence of operations. -/
def execAlive (alive : Bool) : List EndpointOp → Bool
  | [] => alive
  | op :: rest => execAlive (execOpAlive alive op) rest

/-- Modelled from the spec: outcomes of the inference calls in an
operation sequence — an inference call succeeds exactly when the
deployment is still alive when it is issued. -/
def predictResults (alive : Bool) : List EndpointOp → List Bool
  | [] => []
  | .predictOp :: rest => alive :: predictResults alive rest
  | .deleteOp :: rest => predictResults false rest

/-- Deployment failures of the spec's error taxonomy. -/
inductive DeployError where
  | deploymentTimeout : DeployError
  | deploymentRejected : DeployError
deriving DecidableEq, Repr

/-- Modelled from the spec: the deploy call submits the deployment and
polls health once per time unit, returning the endpoint handle as soon
as a health check passes and failing with `DeploymentTimeout` once the
caller-supplied startup timeout elapses.  `health t` says whether the
endpoint is healthy at poll `t`; the remaining fuel is the time left
before the timeout. -/
def deployPoll (health : ℕ → Bool) (h : EndpointHandle) :
    ℕ → ℕ → Except DeployError EndpointHandle
  | _, 0 => .error .deploymentTimeout
  | t, fuel + 1 =>
    if health t then .ok h else deployPoll health h (t + 1) fuel

/-- Modelled from the spec: the blocking deploy operation with a
caller-supplied startup timeout. -/
def deployOp (health : ℕ → Bool) (h : EndpointHandle) (timeout : ℕ) :
    Except DeployError EndpointHandle :=
  deployPoll health h 0 timeout

/-- The notebooks' `health_check_timeout=2400` passed to the deploy call
as `container_startup_health_check_timeout`. -/
def health_check_timeout : ℕ := 2400

/-- A sample handle for concrete instantiations of the platform model. -/
def llmHandle : EndpointHandle :=
  ⟨"huggingface-pytorch-tgi-model", "huggingface-pytorch-tgi-endpoint"⟩

/-- Decoding inverts encoding on a single message. -/
theorem decodeMessage_encodeMessage (m : ChatMessage) :
    decodeMessage (encodeMessage m) = some m := rfl

/-- Decoding inverts encoding across a message list. -/
theorem mapM_decodeMessage_encodeMessage (msgs : List ChatMessage) :
    (msgs.map encodeMessage).mapM decodeMessage = some msgs := by
  induction msgs with
  | nil => rfl
  | cons m rest ih =>
    rw [List.map_cons, List.mapM_cons, decodeMessage_encodeMessage, ih]
    rfl

/-- Aliveness threads through list concatenation. -/
theorem execAlive_append (l1 l2 : List EndpointOp) (a : Bool) :
    execAlive a (l1 ++ l2) = execAlive (execAlive a l1) l2 := by
  induction l1 generalizing a with
  | nil => rfl
  | cons op rest ih => simp [execAlive, ih]

/-- Once the deployment is dead, every inference call fails. -/
theorem predictResults_dead (ops : List EndpointOp) :
    (predictResults false ops).all (fun b => b == false) = true := by
  induction ops with
  | nil => rfl
  | cons op rest ih => cases op <;> simpa [predictResults] using ih

/-- A truncated non-integer rational differs from the original. -/
theorem pyInt_cast_ne (q : ℚ) (hq : ¬ ∃ n : ℤ, q = (n : ℚ)) :
    (pyInt q : ℚ) ≠ q :=
  fun hEq => hq ⟨pyInt q, hEq.symm⟩

/-- The polling loop succeeds within its fuel exactly when a health
check passes at one of the polled instants. -/
theorem deployPoll_ok_iff (health : ℕ → Bool) (h : EndpointHandle) :
    ∀ fuel t, deployPoll health h t fuel = .ok h ↔
      ∃ k < fuel, health (t + k) = true := by
  intro fuel
  induction fuel with
  | zero => intro t; simp [deployPoll]
  | succ n ih =>
    intro t
    cases hh : health t with
    | true =>
      constructor
      · intro _
        exact ⟨0, Nat.succ_pos n, by simpa using hh⟩
      · intro _
        simp [deployPoll, hh]
    | false =>
      have hstep : deployPoll health h t (n + 1) = deployPoll health h (t + 1) n := by
        simp [deployPoll, hh]
      rw [hstep, ih (t + 1)]
      constructor
      · rintro ⟨k, hk, hkh⟩
        refine ⟨k + 1, by omega, ?_⟩
        have harith : t + 1 + k = t + (k + 1) := by omega
        rw [← harith]; exact hkh
      · rintro ⟨k, hk, hkh⟩
        cases k with
        | zero => simp [hh] at hkh
        | succ m =>
          refine ⟨m, by omega, ?_⟩
          have harith : t + (m + 1) = t + 1 + m := by omega
          rw [← harith]; exact hkh

/-- The polling loop either returns the handle or times out. -/
theorem deployPoll_shape (health : ℕ → Bool) (h : EndpointHandle) :
    ∀ fuel t, deployPoll health h t fuel = .ok h ∨
      deployPoll health h t fuel = .error .deploymentTimeout := by
  intro fuel
  induction fuel with
  | zero => intro t; right; rfl
  | succ n ih =>
    intro t
    cases hh : health t with
    | true => left; simp [deployPoll, hh]
    | false =>
      have hind := ih (t + 1)
      simpa [deployPoll, hh] using hind

/-- C1 counterexample: a results directory with two files matching
`*summary.json` does not make the reader fail — it silently parses the
first match (the second file's different contents are ignored). -/
theorem readSummary_two_matches_silently_picks_first :
    readLlamaSummary
      [("a_summary.json",
        .obj [("mean_input_tokens", .num 550),
              ("mean_output_tokens", .num 150),
              ("results_ttft_s_mean", .num 2),
              ("results_mean_output_throughput_token_per_s", .num 100),
              ("results_inter_token_latency_s_mean", .num 3)]),
       ("b_summary.json",
        .obj [("mean_input_tokens", .num 1),
              ("mean_output_tokens", .num 1),
              ("results_ttft_s_mean", .num 1),
              ("results_mean_output_throughput_token_per_s", .num 1),
              ("results_inter_token_latency_s_mean", .num 1)])] =
      .ok ⟨.num 550, .num 150, 2000, 100, 3000⟩ := by
  have hm : matchesSummaryPattern "a_summary.json" = true := by decide
  simp [readLlamaSummary, parseLlamaData, Json.getItem, Json.asNum, hm,
    List.filter, List.lookup, Bind.bind, Except.bind, Pure.pure, Except.pure]
  norm_num

/-- C1 amended: the reader does not check for a unique match.  With zero
matching files it raises an unstructured `IndexError` (not a structured
NotFound), and with one or more matches it parses the first match in
directory order, silently ignoring any others. -/
theorem readSummary_first_match_or_indexError
    (files : List (String × Json)) :
    ((files.filter fun f => matchesSummaryPattern f.1) = [] →
      readLlamaSummary files = .error .indexError) ∧
    (∀ name data rest,
      (files.filter fun f => matchesSummaryPattern f.1) = (name, data) :: rest →
      readLlamaSummary files = parseLlamaData data) := by
  constructor
  · intro hnil
    unfold readLlamaSummary
    rw [hnil]
    rfl
  · intro name data rest hcons
    unfold readLlamaSummary
    rw [hcons]
    rfl

/-- C1 witness: the amended behaviour at concrete directories — an empty
match set raises `IndexError`, and a directory with two matches behaves
exactly as if it held only the first. -/
theorem readSummary_first_match_or_indexError_witness :
    readLlamaSummary [("notes.txt", .null)] = .error .indexError ∧
    readLlamaSummary [("a_summary.json", .null), ("b_summary.json", .num 1)] =
      parseLlamaData .null := by
  have h0 : matchesSummaryPattern "notes.txt" = false := by decide
  have h1 : matchesSummaryPattern "a_summary.json" = true := by decide
  have h2 : matchesSummaryPattern "b_summary.json" = true := by decide
  constructor
  · exact (readSummary_first_match_or_indexError _).1
      (by simp [List.filter, h0])
  · exact (readSummary_first_match_or_indexError _).2 "a_summary.json" .null
      [("b_summary.json", .num 1)] (by simp [List.filter, h1, h2])

/-- C2 counterexample: nothing in the code rejects a configuration that
violates the invariants — the builder (`HuggingFaceModel(...)`) accepts
an environment whose max input length 5000 exceeds its max total tokens
4096 and stores it verbatim. -/
theorem builder_accepts_violating_config :
    deploymentInvariantsHold violatingEnv 4096 4 = false ∧
    mkHuggingFaceModel "role-arn" "image-uri" violatingEnv =
      ⟨"role-arn", "image-uri", violatingEnv⟩ := by
  exact ⟨by decide, rfl⟩

/-- C2 amended: both configurations constructed by the notebooks satisfy
the invariants — max total tokens equals the compiled sequence length
(the Llama config's own `HF_SEQUENCE_LENGTH`, the Mixtral compile cell's
`SEQUENCE_LENGTH`), max input length is strictly below max total tokens,
and max batch size equals the compiled batch size — but no builder
validation exists, so a violating configuration would not be rejected. -/
theorem notebook_configs_satisfy_invariants (token : Option String) :
    deploymentInvariantsHold (llamaConfig token) 4096 4 = true ∧
    envNat (llamaConfig token) "HF_SEQUENCE_LENGTH" = some 4096 ∧
    envNat (llamaConfig token) "HF_BATCH_SIZE" = some 4 ∧
    deploymentInvariantsHold mixtralConfig SEQUENCE_LENGTH BATCH_SIZE = true := by
  exact ⟨rfl, rfl, rfl, by decide⟩

/-- C3: on a directory holding exactly one matching summary file with the
given field values, the reader reports time-to-first-token
5505.33 ms (= 5.50533 s × 1000) and inter-token latency 23.46 ms/token
(= 0.02346 s × 1000), with the token means and throughput verbatim. -/
theorem llama_reader_unit_conversion :
    readLlamaSummary
      [("2024-05-01_summary.json",
        .obj [("mean_input_tokens", .num 550),
              ("mean_output_tokens", .num 150),
              ("results_ttft_s_mean", .num (550533/100000)),
              ("results_mean_output_throughput_token_per_s", .num (1328/10)),
              ("results_inter_token_latency_s_mean", .num (2346/100000))])] =
      .ok ⟨.num 550, .num 150, 550533/100, 1328/10, 2346/100⟩ := by
  have hm : matchesSummaryPattern "2024-05-01_summary.json" = true := by decide
  simp [readLlamaSummary, parseLlamaData, Json.getItem, Json.asNum, hm,
    List.filter, List.lookup, Bind.bind, Except.bind, Pure.pure, Except.pure]
  norm_num

/-- C4: the Llama predict call's encoded body does not contain exactly
the documented fields — it carries an extra key `"steam"` (a misspelling
of `"stream"`), outside the documented schema; the Mixtral call's body
stays within the schema.  The code contradicts the documented request
schema, which the spec itself flags as a probable source bug. -/
theorem llama_predict_body_has_undocumented_steam_key :
    llamaRequestBody.objKeys =
      ["messages", "model", "top_p", "temperature", "max_tokens", "stop",
       "steam"] ∧
    ("steam" ∈ llamaRequestBody.objKeys ∧
      "steam" ∉ documentedRequestKeys) ∧
    (∀ k ∈ mixtralRequestBody.objKeys, k ∈ documentedRequestKeys) := by
  refine ⟨rfl, ⟨by decide, by decide⟩, by decide⟩

/-- C5: the teardown sequence of the clean-up cell (`delete_model` then
`delete_endpoint`) reports no error, and running it a second time on the
state left by a successful first run changes nothing and again reports
no error — under the spec's model of platform deletion, in which
deleting an absent resource is a no-op. -/
theorem cleanup_idempotent (s : PlatformState) (h : EndpointHandle) :
    (cleanupCell s h).2 = false ∧
    cleanupCell (cleanupCell s h).1 h = ((cleanupCell s h).1, false) := by
  constructor
  · rfl
  · simp [cleanupCell, deleteModelCall, deleteEndpointCall,
      List.filter_filter]

/-- C6: encoding a message sequence into a request body and decoding it
back through the codec returns the sequence unchanged, whatever the
accompanying generation parameters — so every message's role and content
round-trip identically. -/
theorem codec_roundtrip (msgs : List ChatMessage)
    (params : List (String × Json)) :
    decodeMessages (encodeRequest msgs params) = some msgs := by
  show (msgs.map encodeMessage).mapM decodeMessage = some msgs
  exact mapM_decodeMessage_encodeMessage msgs

/-- C7: in every execution, once the delete call has destroyed the
handle's deployment, every subsequent inference call fails: the list of
predict outcomes issued after a deletion contains only failures. -/
theorem no_inference_succeeds_after_delete (a : Bool)
    (pre post : List EndpointOp) :
    (predictResults (execAlive a (pre ++ [EndpointOp.deleteOp])) post).all
      (fun b => b == false) = true := by
  rw [execAlive_append]
  exact predictResults_dead post

/-- C8 counterexample: when no Hugging Face token is stored,
`HfFolder.get_token()` returns `None` and the Llama config's `HF_TOKEN`
entry is `None` — not a string — so not every value of the environment
map passed to the deploy call is a string. -/
theorem llamaConfig_no_token_value_not_string :
    envAllStrings (llamaConfig Option.none) = false ∧
    (llamaConfig Option.none).lookup "HF_TOKEN" = some PyValue.pynone := by
  exact ⟨rfl, rfl⟩

/-- C8 amended: every key of both environment maps is a string, and
every value is a string provided the Hugging Face token lookup returns a
token; the Mixtral config (which has no token entry) has only string
values unconditionally.  When no token is stored, the Llama config's
`HF_TOKEN` value is `None` rather than a string. -/
theorem env_values_strings_when_token_present :
    (∀ t : String, envAllStrings (llamaConfig (Option.some t)) = true) ∧
    envAllStrings mixtralConfig = true := by
  exact ⟨fun t => rfl, rfl⟩

/-- C9: the deploy operation returns the endpoint handle exactly when a
health check passes before the caller-supplied timeout elapses, and
otherwise fails with `DeploymentTimeout`; it polls at most `timeout`
times, never waiting unboundedly. -/
theorem deploy_blocks_until_healthy_or_timeout (health : ℕ → Bool)
    (h : EndpointHandle) (timeout : ℕ) :
    (deployOp health h timeout = .ok h ↔
      ∃ t < timeout, health t = true) ∧
    ((∀ t < timeout, health t = false) →
      deployOp health h timeout = .error .deploymentTimeout) := by
  constructor
  · simpa using deployPoll_ok_iff health h timeout 0
  · intro hfails
    rcases deployPoll_shape health h timeout 0 with hok | herr
    · obtain ⟨t, ht, hth⟩ := by
        simpa using (deployPoll_ok_iff health h timeout 0).mp hok
      rw [hfails t ht] at hth
      exact absurd hth (by simp)
    · exact herr

/-- C9 witness: with the notebooks' 2400-second startup timeout, an
endpoint healthy at poll 3 deploys successfully, and one that is never
healthy fails with `DeploymentTimeout`. -/
theorem deploy_blocks_until_healthy_or_timeout_witness :
    deployOp (fun t => t == 3) llmHandle health_check_timeout =
      .ok llmHandle ∧
    deployOp (fun _ => false) llmHandle health_check_timeout =
      .error .deploymentTimeout := by
  constructor
  · exact (deploy_blocks_until_healthy_or_timeout (fun t => t == 3)
      llmHandle health_check_timeout).1.mpr
      ⟨3, by norm_num [health_check_timeout], by decide⟩
  · exact (deploy_blocks_until_healthy_or_timeout (fun _ => false)
      llmHandle health_check_timeout).2 (fun t _ => rfl)

/-- C10: the Mixtral reader truncates the two token means to integers
via `int(...)` (truncation toward zero), so whenever a token mean is not
an integer the reported count differs from the file's value, while
time-to-first-token and inter-token latency are kept as
millisecond-scaled numbers and throughput and requests-per-minute pass
through unchanged. -/
theorem mixtral_reader_truncates_token_means (qIn qOut qT qI qTh qR : ℚ) :
    parseMixtralData (mkMixtralData qIn qOut qT qI qTh qR) =
      .ok ⟨pyInt qIn, pyInt qOut, qT * 1000, qI * 1000, qTh, qR⟩ ∧
    ((¬ ∃ n : ℤ, qIn = (n : ℚ)) → (pyInt qIn : ℚ) ≠ qIn) ∧
    ((¬ ∃ n : ℤ, qOut = (n : ℚ)) → (pyInt qOut : ℚ) ≠ qOut) := by
  exact ⟨rfl, pyInt_cast_ne qIn, pyInt_cast_ne qOut⟩

/-- C10 witness: a summary file with the non-integer token means 561.5
and 667.5 is reported with token counts that differ from the file's
values, the latency fields scaled to milliseconds, and throughput and
requests-per-minute verbatim. -/
theorem mixtral_reader_truncates_token_means_witness :
    parseMixtralData (mkMixtralData (1123/2) (1335/2) 1 2 3 4) =
      .ok ⟨pyInt (1123/2), pyInt (1335/2), 1 * 1000, 2 * 1000, 3, 4⟩ ∧
    (pyInt ((1123 : ℚ)/2) : ℚ) ≠ (1123 : ℚ)/2 ∧
    (pyInt ((1335 : ℚ)/2) : ℚ) ≠ (1335 : ℚ)/2 := by
  have h1 : ¬ ∃ n : ℤ, ((1123 : ℚ)/2) = (n : ℚ) := by
    rintro ⟨n, hn⟩
    have h2 : (1123 : ℚ) = (n : ℚ) * 2 := by
      field_simp at hn
      linarith
    have h3 : (1123 : ℤ) = n * 2 := by exact_mod_cast h2
    omega
  have h4 : ¬ ∃ n : ℤ, ((1335 : ℚ)/2) = (n : ℚ) := by
    rintro ⟨n, hn⟩
    have h5 : (1335 : ℚ) = (n : ℚ) * 2 := by
      field_simp at hn
      linarith
    have h6 : (1335 : ℤ) = n * 2 := by exact_mod_cast h5
    omega
  refine ⟨(mixtral_reader_truncates_token_means (1123/2) (1335/2) 1 2 3 4).1,
    (mixtral_reader_truncates_token_means (1123/2) (1335/2) 1 2 3 4).2.1 h1,
    (mixtral_reader_truncates_token_means (1123/2) (1335/2) 1 2 3 4).2.2 h4⟩
